import Mathlib

/-!
Shallow embedding of the allenopt hyperparameter-search CLI
(`src/allenopt/commands/allenopt.py`) and of the orchestration core it
drives.  Definitions translated from the source keep the source's names.
Behaviour that lives in the optuna library (Study.best, create_study,
the optimize loop, pruning) is not part of the repository's source; those
definitions are modelled from the specification and say so in their doc
comments.
-/

namespace AllenOpt

/-- A JSON scalar appearing in a descriptor's `keyword` mapping. -/
inductive JVal
  | num (q : Rat)
  | str (s : String)
  deriving DecidableEq, Repr

/-- A JSON object used as a keyword mapping, in document order. -/
abbrev KwMap := List (String × JVal)

/-- One entry of the hyperparameter descriptor document:
`{"type": <kind>, "keyword": {...}}`. -/
structure HParam where
  type : String
  keyword : KwMap
  deriving DecidableEq, Repr

/-- Trial lifecycle states. -/
inductive TrialState
  | RUNNING
  | COMPLETE
  | PRUNED
  | FAILED
  deriving DecidableEq, Repr

/-- Direction of optimization (`--direction`, choices minimize/maximize). -/
inductive Direction
  | minimize
  | maximize
  deriving DecidableEq, Repr

/-- One trial's record: id, sampled parameters, final value, state. -/
structure TrialRecord where
  id : Nat
  params : List (String × Rat)
  finalValue : Option Rat
  state : TrialState
  deriving DecidableEq, Repr

/-- How a constructor is invoked: Python `cls(**kw)` (keyword arguments,
unpacked) versus `cls(kw)` (the whole mapping as one positional argument). -/
inductive CtorArg
  | positionalMap (kw : KwMap)
  | kwargs (kw : KwMap)
  deriving DecidableEq, Repr

/-- A sampler or pruner as constructed by the CLI: the class name looked up
by `type`, and the shape of the argument its constructor receives. -/
structure StrategyCall where
  typeName : String
  arg : CtorArg
  deriving DecidableEq, Repr

/-- One section (`sampler` or `pruner`) of the optuna configuration
document: `{"type": <name>, "keyword": {...}}`. -/
structure SectionCfg where
  type : String
  keyword : KwMap
  deriving DecidableEq, Repr

/-- The optional optuna configuration document
`{"sampler": {...}, "pruner": {...}}`; absent keys are `none`. -/
structure OptunaConfig where
  sampler : Option SectionCfg
  pruner : Option SectionCfg
  deriving DecidableEq, Repr

/-- The empty configuration `{}` used when no config file is read. -/
def emptyOptunaConfig : OptunaConfig := ⟨none, none⟩

/-- A study: name, direction, attached sampler/pruner, trial history.
The trials of a persisted study are listed in creation order. -/
structure Study where
  name : String
  direction : Direction
  sampler : Option StrategyCall
  pruner : Option StrategyCall
  trials : List TrialRecord
  deriving DecidableEq, Repr

/-- Errors of the orchestration core, named as in the specification's
error taxonomy. -/
inductive StudyError
  | NoCompletedTrialError
  | DuplicateStudyError
  deriving DecidableEq, Repr

/-- Errors that abort a single trial's objective (and, propagated, the
run): `MalformedSpecError` models the `AttributeError` from
`getattr(trial, "suggest_{type}")` on an unrecognized kind,
`MissingNameError` the `TypeError` from calling a suggestion method
without a parameter name, `DirectoryConflictError` a pre-existing trial
output directory. -/
inductive RunError
  | MalformedSpecError
  | MissingNameError
  | DirectoryConflictError
  deriving DecidableEq, Repr

/-! ## Study.best and the exporter -/

/-- `isBetter d a b` holds when value `a` is strictly better than `b`
for direction `d`. -/
def isBetter (d : Direction) (a b : Rat) : Bool :=
  match d with
  | .minimize => a < b
  | .maximize => b < a

/-- The final value of a trial (terminal COMPLETE trials always carry
one; `0` is a placeholder never hit on such trials). -/
def fval (t : TrialRecord) : Rat := (t.finalValue).getD 0

/-- Left fold selecting the best trial; keeps the current trial on ties,
so with ids increasing along the list the earliest id wins. -/
def bestLoop (d : Direction) : TrialRecord → List TrialRecord → TrialRecord
  | cur, [] => cur
  | cur, t :: ts => bestLoop d (if isBetter d (fval t) (fval cur) then t else cur) ts

/-- Modelled from the spec: `Study.best()` — the terminal COMPLETE trial
with extremal final value per the study's direction, ties broken by
earliest id; fails with `NoCompletedTrialError` if no trial has reached
COMPLETE.  (The source reaches this through optuna's
`study.best_params`.) -/
def bestTrial (s : Study) : Except StudyError TrialRecord :=
  match s.trials.filter (fun t => t.state = TrialState.COMPLETE) with
  | [] => .error .NoCompletedTrialError
  | t :: ts => .ok (bestLoop s.direction t ts)

/-- Render parameters as `key=value` pairs joined by single spaces
(source line 89: `" ".join("{}={}".format(k, v) ...)`). -/
def formatParams (ps : List (String × Rat)) : String :=
  String.intercalate " " (ps.map (fun kv => kv.1 ++ "=" ++ toString kv.2))

/-- `export_hyperparameters` (source lines 85-89): load the persisted
study and print its best trial's parameters as `key=value` pairs. -/
def export_hyperparameters (s : Study) : Except StudyError String :=
  (bestTrial s).map (fun t => formatParams t.params)

/-! ## The objective: descriptor processing and the executor -/

/-- Modelled from the spec: the suggestion kinds a trial understands —
the ParameterSpec kind enum (float, int, categorical, loguniform,
discrete_uniform) plus the `uniform` kind used by the spec's end-to-end
example.  In the source this set is the `suggest_*` methods found by
`getattr(trial, "suggest_{}".format(attr_type))`, which live in the
optuna library. -/
def knownSuggestTypes : List String :=
  ["float", "int", "categorical", "loguniform", "discrete_uniform", "uniform"]

/-- The parameter name carried by a descriptor's keyword mapping (every
`suggest_*` method requires a string `name` argument). -/
def kwName (kw : KwMap) : Option String :=
  match kw.lookup "name" with
  | some (JVal.str s) => some s
  | _ => none

/-- Abstract sampler suggestion: given the suggestion kind and the
keyword mapping (passed verbatim), produce the sampled value. -/
abbrev SuggestFun := String → KwMap → Rat

/-- The descriptor loop of `_objective` (source lines 43-46): for each
entry in document order, look up the suggestion method named by its
`type` and call it with the entry's `keyword` mapping; an unrecognized
kind aborts with `MalformedSpecError` (the `getattr` `AttributeError`),
a keyword without a name with `MissingNameError`.  Returns the
parameters sampled so far together with the first error, if any. -/
def suggestAll (sample : SuggestFun) :
    List HParam → List (String × Rat) → List (String × Rat) × Option RunError
  | [], acc => (acc, none)
  | h :: hs, acc =>
    if knownSuggestTypes.contains h.type then
      match kwName h.keyword with
      | some n => suggestAll sample hs (acc ++ [(n, sample h.type h.keyword)])
      | none => (acc, some .MissingNameError)
    else (acc, some .MalformedSpecError)

/-- The trial's output directory (source line 48):
`os.path.join(serialization_dir, "trial_{}".format(trial.number))`. -/
def trialDirPath (serialization_dir : String) (trialNumber : Nat) : String :=
  serialization_dir ++ "/trial_" ++ toString trialNumber

/-- Modelled from the spec: `Pruner.should_prune` on the reporting
trial's intermediate values; absence of a configured pruner means the
trial is never pruned. -/
def shouldPrune (pruner : Option StrategyCall)
    (decision : StrategyCall → List Rat → Bool) (hist : List Rat) : Bool :=
  match pruner with
  | none => false
  | some p => decision p hist

/-- Modelled from the spec: scan the trial's intermediate reports in
order, asking the pruner after each one; returns the last reported value
at the first prune request, or `none` when the trial is never pruned. -/
def scanPrune (pruner : Option StrategyCall)
    (decision : StrategyCall → List Rat → Bool) :
    List Rat → List Rat → Option Rat
  | _, [] => none
  | acc, v :: vs =>
    if shouldPrune pruner decision (acc ++ [v]) then some v
    else scanPrune pruner decision (acc ++ [v]) vs

/-- The environment a run executes in: the trial's suggestion function,
the training collaborator's metric, each trial's intermediate reports,
the pruner's decision function, per-trial wall-clock durations, and the
set of pre-existing directories. -/
structure RunEnv where
  sample : SuggestFun
  train : List (String × Rat) → Rat
  reports : Nat → List Rat
  pruneDecision : StrategyCall → List Rat → Bool
  durations : Nat → Rat

/-- `_objective` (source lines 38-50) for one trial: run the descriptor
loop, then hand the trial to the executor.  The executor is modelled
from the spec: it creates the isolated directory
`serialization_dir/trial_<id>` — failing with `DirectoryConflictError`
if it pre-exists — runs training with intermediate reporting, and the
trial ends PRUNED (with its last intermediate value) if the pruner ever
says so, COMPLETE (with the collaborator's metric) otherwise.  Returns
the trial's record, the directories now existing, and the error
propagated to the optimize loop, if any. -/
def _objective (env : RunEnv) (hparams : List HParam) (serialization_dir : String)
    (pruner : Option StrategyCall) (id : Nat) (fs : List String) :
    TrialRecord × List String × Option RunError :=
  match suggestAll env.sample hparams [] with
  | (ps, some e) => (⟨id, ps, none, .FAILED⟩, fs, some e)
  | (ps, none) =>
    let dir := trialDirPath serialization_dir id
    if fs.contains dir then
      (⟨id, ps, none, .FAILED⟩, fs, some .DirectoryConflictError)
    else
      match scanPrune pruner env.pruneDecision [] (env.reports id) with
      | some v => (⟨id, ps, some v, .PRUNED⟩, fs ++ [dir], none)
      | none => (⟨id, ps, some (env.train ps), .COMPLETE⟩, fs ++ [dir], none)

/-! ## Optuna configuration loading and strategy construction -/

/-- The file system as the CLI sees it: which paths are regular files,
and the configuration document parsed from a file's contents. -/
structure FileSystem where
  isfile : String → Bool
  readConfig : String → OptunaConfig

/-- Source lines 52-55: the optuna configuration is read only when the
path is given and names an existing regular file; otherwise the empty
document `{}` is used and no error is raised. -/
def loadOptunaConfig (fsys : FileSystem) (optuna_param_path : Option String) :
    OptunaConfig :=
  match optuna_param_path with
  | some p => if fsys.isfile p then fsys.readConfig p else emptyOptunaConfig
  | none => emptyOptunaConfig

/-- Source lines 57-61: when a `pruner` section is present, the pruner
class named by its `type` is constructed with the section's keyword
mapping unpacked as keyword arguments (`pruner_class(**...)`); otherwise
no pruner (`None`). -/
def buildPruner (cfg : OptunaConfig) : Option StrategyCall :=
  cfg.pruner.map (fun p => ⟨p.type, CtorArg.kwargs p.keyword⟩)

/-- Source lines 63-67: when a `sampler` section is present, the sampler
class named by its `type` is constructed with the section's keyword
mapping as a single positional argument (`sampler_class(...)`, not
unpacked); otherwise no sampler (`None`). -/
def buildSampler (cfg : OptunaConfig) : Option StrategyCall :=
  cfg.sampler.map (fun s => ⟨s.type, CtorArg.positionalMap s.keyword⟩)

/-- Modelled from the spec: the sampling strategy the study actually
uses — selecting no sampler falls back to a default uniform-random
strategy. -/
inductive EffectiveSampler
  | defaultUniformRandom
  | configured (c : StrategyCall)
  deriving DecidableEq, Repr

/-- Modelled from the spec: resolve the optional sampler to the strategy
in effect. -/
def effectiveSampler (s : Option StrategyCall) : EffectiveSampler :=
  match s with
  | none => .defaultUniformRandom
  | some c => .configured c

/-! ## CLI argument defaults (`AllenOpt.add_subparser`) -/

/-- The optimization-relevant arguments after argparse. -/
structure ParsedArgs where
  skip_if_exists : Bool
  direction : Direction
  n_trials : Option Nat
  timeout : Option Rat
  storage : String
  metrics : String
  deriving DecidableEq, Repr

/-- `AllenOpt.add_subparser` (source lines 127-176): each `Option` input
is the value the user supplied, `none` meaning the flag was not given.
`--skip-if-exists` is a store-true flag defaulting to False;
`--direction` defaults to minimize; `--n-trials` defaults to 50;
`--timeout` has no default (absent means None); `--storage` and
`--metrics` default to fixed strings. -/
def parseArgs (skipFlag : Bool) (dirOpt : Option Direction) (nTrialsOpt : Option Nat)
    (timeoutOpt : Option Rat) (storageOpt : Option String) (metricsOpt : Option String) :
    ParsedArgs :=
  { skip_if_exists := skipFlag
    direction := dirOpt.getD .minimize
    n_trials := some (nTrialsOpt.getD 50)
    timeout := timeoutOpt
    storage := storageOpt.getD "sqlite:///allenopt.db"
    metrics := metricsOpt.getD "best_validation_loss" }

/-! ## Study creation and the optimize loop -/

/-- Modelled from the spec: `optuna.create_study(..., load_if_exists=...)`
(source lines 69-76) — if a study with the given name already exists in
the storage, fail with `DuplicateStudyError` when `load_if_exists` is
false, or load it and re-attach the given sampler and pruner when true;
otherwise create a new empty study. -/
def create_study (storage : List Study) (study_name : String) (direction : Direction)
    (sampler pruner : Option StrategyCall) (load_if_exists : Bool) :
    Except StudyError Study :=
  match storage.find? (fun st => st.name == study_name) with
  | some st =>
    if load_if_exists then .ok { st with sampler := sampler, pruner := pruner }
    else .error .DuplicateStudyError
  | none => .ok ⟨study_name, direction, sampler, pruner, []⟩

/-- Source lines 52-76: load the optuna configuration, build the pruner
and sampler from it, and create or load the study. -/
def setupStudy (fsys : FileSystem) (optuna_param_path : Option String)
    (args : ParsedArgs) (study_name : String) (storage : List Study) :
    Except StudyError Study :=
  let cfg := loadOptunaConfig fsys optuna_param_path
  create_study storage study_name args.direction (buildSampler cfg) (buildPruner cfg)
    args.skip_if_exists

/-- Modelled from the spec: the optimize loop's terminal condition —
stop when a configured `n_trials` has been consumed or a configured
`timeout` has elapsed; an unconfigured budget never triggers. -/
def stopNow (n_trials : Option Nat) (timeout : Option Rat)
    (done : Nat) (elapsed : Rat) : Bool :=
  (match n_trials with
   | some n => decide (n ≤ done)
   | none => false) ||
  (match timeout with
   | some t => decide (t ≤ elapsed)
   | none => false)

/-- The evolving state of one `study.optimize` run. -/
structure LoopState where
  trials : List TrialRecord
  fs : List String
  elapsed : Rat
  fatal : Option RunError
  stoppedByBudget : Bool
  deriving DecidableEq, Repr

/-- Modelled from the spec: `study.optimize(objective, n_trials, timeout)`
(source line 82).  Each iteration first checks the budgets, then asks
for a fresh trial (next id), runs `_objective`, and records the outcome;
an objective error marks the trial FAILED and propagates, aborting the
run (optuna's default), while a pruned trial is tolerated and the loop
continues.  `fuel` bounds the number of iterations examined: running out
of fuel models external interruption, not a budget stop. -/
def optimizeLoop (env : RunEnv) (hparams : List HParam) (serialization_dir : String)
    (pruner : Option StrategyCall) (n_trials : Option Nat) (timeout : Option Rat) :
    Nat → LoopState → LoopState
  | 0, st => st
  | fuel + 1, st =>
    if stopNow n_trials timeout st.trials.length st.elapsed then
      { st with stoppedByBudget := true }
    else
      let id := st.trials.length
      let r := _objective env hparams serialization_dir pruner id st.fs
      let st' : LoopState :=
        { trials := st.trials ++ [r.1]
          fs := r.2.1
          elapsed := st.elapsed + env.durations id
          fatal := r.2.2
          stoppedByBudget := false }
      match r.2.2 with
      | some _ => st'
      | none => optimizeLoop env hparams serialization_dir pruner n_trials timeout fuel st'

/-- A fresh run's initial state: no trials, the given pre-existing
directories, clock at zero. -/
def initState (fs0 : List String) : LoopState :=
  { trials := [], fs := fs0, elapsed := 0, fatal := none, stoppedByBudget := false }

/-! ## Lemmas about `bestLoop` -/

lemma isBetter_irrefl (d : Direction) (a : Rat) : isBetter d a a = false := by
  cases d <;> simp [isBetter]

lemma isBetter_trans {d : Direction} {a b c : Rat} (h1 : isBetter d a b = true)
    (h2 : isBetter d b c = true) : isBetter d a c = true := by
  cases d <;> simp only [isBetter, decide_eq_true_eq] at * <;> linarith

lemma bestLoop_step_pos {d : Direction} {cur t : TrialRecord} (ts : List TrialRecord)
    (h : isBetter d (fval t) (fval cur) = true) :
    bestLoop d cur (t :: ts) = bestLoop d t ts := by
  simp [bestLoop, h]

lemma bestLoop_step_neg {d : Direction} {cur t : TrialRecord} (ts : List TrialRecord)
    (h : isBetter d (fval t) (fval cur) = false) :
    bestLoop d cur (t :: ts) = bestLoop d cur ts := by
  simp [bestLoop, h]

lemma bestLoop_mem (d : Direction) (cur : TrialRecord) (ts : List TrialRecord) :
    bestLoop d cur ts ∈ cur :: ts := by
  induction ts generalizing cur with
  | nil => simp [bestLoop]
  | cons t ts ih =>
    cases h : isBetter d (fval t) (fval cur) with
    | true =>
      rw [bestLoop_step_pos ts h]
      exact List.mem_cons_of_mem cur (ih t)
    | false =>
      rw [bestLoop_step_neg ts h]
      rcases List.mem_cons.1 (ih cur) with hc | hc
      · rw [hc]
        exact List.mem_cons_self _ _
      · exact List.mem_cons_of_mem cur (List.mem_cons_of_mem t hc)

lemma bestLoop_improves (d : Direction) (cur : TrialRecord) (ts : List TrialRecord) :
    bestLoop d cur ts = cur ∨ isBetter d (fval (bestLoop d cur ts)) (fval cur) = true := by
  induction ts generalizing cur with
  | nil => exact Or.inl rfl
  | cons t ts ih =>
    cases h : isBetter d (fval t) (fval cur) with
    | true =>
      rw [bestLoop_step_pos ts h]
      rcases ih t with he | hb
      · refine Or.inr ?_
        rw [he]
        exact h
      · exact Or.inr (isBetter_trans hb h)
    | false =>
      rw [bestLoop_step_neg ts h]
      exact ih cur

lemma bestLoop_not_better (d : Direction) (cur : TrialRecord) (ts : List TrialRecord) :
    ∀ u ∈ cur :: ts, isBetter d (fval u) (fval (bestLoop d cur ts)) = false := by
  induction ts generalizing cur with
  | nil =>
    intro u hu
    rcases List.mem_cons.1 hu with hc | hc
    · simpa [bestLoop, hc] using isBetter_irrefl d (fval cur)
    · cases hc
  | cons t ts ih =>
    intro u hu
    cases h : isBetter d (fval t) (fval cur) with
    | true =>
      rw [bestLoop_step_pos ts h]
      rcases List.mem_cons.1 hu with hc | hc
      · cases hb : isBetter d (fval u) (fval (bestLoop d t ts)) with
        | true =>
          have ht : isBetter d (fval t) (fval (bestLoop d t ts)) = true :=
            isBetter_trans h (hc ▸ hb)
          have := ih t t (List.mem_cons_self _ _)
          simp [this] at ht
        | false => rfl
      · exact ih t u hc
    | false =>
      rw [bestLoop_step_neg ts h]
      rcases List.mem_cons.1 hu with hc | hc
      · exact hc ▸ ih cur cur (List.mem_cons_self _ _)
      · rcases List.mem_cons.1 hc with hc' | hc'
        · subst hc'
          cases hb : isBetter d (fval u) (fval (bestLoop d cur ts)) with
          | true =>
            rcases bestLoop_improves d cur ts with he | hi
            · rw [he] at hb
              rw [hb] at h
              cases h
            · rw [isBetter_trans hb hi] at h
              cases h
          | false => rfl
        · exact ih cur u (List.mem_cons_of_mem cur hc')

lemma bestLoop_tie_id (d : Direction) (cur : TrialRecord) (ts : List TrialRecord)
    (hsort : (cur :: ts).Pairwise (fun a b => a.id < b.id)) :
    ∀ u ∈ cur :: ts, fval u = fval (bestLoop d cur ts) →
      (bestLoop d cur ts).id ≤ u.id := by
  induction ts generalizing cur with
  | nil =>
    intro u hu _
    rcases List.mem_cons.1 hu with hc | hc
    · simp [bestLoop, hc]
    · cases hc
  | cons t ts ih =>
    intro u hu
    have hsort' : (t :: ts).Pairwise (fun a b => a.id < b.id) :=
      (List.pairwise_cons.1 hsort).2
    cases h : isBetter d (fval t) (fval cur) with
    | true =>
      rw [bestLoop_step_pos ts h]
      intro htie
      rcases List.mem_cons.1 hu with hc | hc
      · exfalso
        have hrc : isBetter d (fval (bestLoop d t ts)) (fval cur) = true := by
          rcases bestLoop_improves d t ts with he | hi
          · rw [he]
            exact h
          · exact isBetter_trans hi h
        rw [hc] at htie
        rw [htie] at hrc
        rw [isBetter_irrefl] at hrc
        cases hrc
      · exact ih t hsort' u hc htie
    | false =>
      rw [bestLoop_step_neg ts h]
      intro htie
      have hsub : (cur :: ts).Sublist (cur :: t :: ts) :=
        List.Sublist.cons₂ cur (List.sublist_cons_self t ts)
      have hsort'' : (cur :: ts).Pairwise (fun a b => a.id < b.id) :=
        hsort.sublist hsub
      rcases List.mem_cons.1 hu with hc | hc
      · exact ih cur hsort'' u (hc ▸ List.mem_cons_self _ _) (hc ▸ htie)
      · rcases List.mem_cons.1 hc with hc' | hc'
        · rcases bestLoop_improves d cur ts with he | hi
          · have hlt : cur.id < u.id := by
              have := (List.pairwise_cons.1 hsort).1
              exact hc' ▸ this t (List.mem_cons_self _ _)
            rw [he]
            exact le_of_lt hlt
          · exfalso
            rw [hc'] at htie
            rw [← htie] at hi
            rw [hi] at h
            cases h
        · exact ih cur hsort'' u (List.mem_cons_of_mem cur hc') htie

/-- The specification of `Study.best` and the exporter: export fails
with `NoCompletedTrialError` exactly when no trial has reached COMPLETE;
otherwise the best trial is a COMPLETE (never FAILED) trial of the
study, no COMPLETE trial has a strictly better final value for the
study's direction, any COMPLETE trial tying its final value has an id
at least as large, and the exported text is its parameters rendered as
`key=value` pairs. -/
def BestExportSpec (s : Study) : Prop :=
  ((∃ t ∈ s.trials, t.state = TrialState.COMPLETE) → ∃ t, bestTrial s = .ok t)
  ∧ (export_hyperparameters s = .error .NoCompletedTrialError ↔
      ∀ t ∈ s.trials, t.state ≠ TrialState.COMPLETE)
  ∧ ∀ t, bestTrial s = .ok t →
      t ∈ s.trials ∧ t.state = TrialState.COMPLETE ∧ t.state ≠ TrialState.FAILED
      ∧ (∀ u ∈ s.trials, u.state = TrialState.COMPLETE →
          isBetter s.direction (fval u) (fval t) = false)
      ∧ (∀ u ∈ s.trials, u.state = TrialState.COMPLETE → fval u = fval t → t.id ≤ u.id)
      ∧ export_hyperparameters s = .ok (formatParams t.params)

/-- C1: For every persisted study, export returns `study.best().params`
— where `best()` is the terminal COMPLETE trial with extremal final
value per the study's direction, ties broken by earliest id, and never a
FAILED trial — printed as `key=value` pairs; if no trial has reached
COMPLETE, export fails with `NoCompletedTrialError` propagated from
`Study.best()`. -/
theorem allenopt_C1 (s : Study)
    (hsort : s.trials.Pairwise (fun a b => a.id < b.id)) : BestExportSpec s := by
  cases hl : s.trials.filter (fun t => t.state = TrialState.COMPLETE) with
  | nil =>
    have hnone : ∀ t ∈ s.trials, t.state ≠ TrialState.COMPLETE := by
      intro t ht hc
      have hmem : t ∈ s.trials.filter (fun t => t.state = TrialState.COMPLETE) :=
        List.mem_filter.2 ⟨ht, by simp [hc]⟩
      rw [hl] at hmem
      cases hmem
    have hb : bestTrial s = .error .NoCompletedTrialError := by
      simp only [bestTrial]
      rw [hl]
    refine ⟨?_, ?_, ?_⟩
    · rintro ⟨t, ht, hc⟩
      exact absurd hc (hnone t ht)
    · constructor
      · intro _
        exact hnone
      · intro _
        simp [export_hyperparameters, hb, Except.map]
    · intro t ht
      rw [hb] at ht
      exact Except.noConfusion ht
  | cons a as =>
    have hbt : bestTrial s = .ok (bestLoop s.direction a as) := by
      simp only [bestTrial]
      rw [hl]
    have hsub : (s.trials.filter (fun t => t.state = TrialState.COMPLETE)).Sublist s.trials :=
      List.filter_sublist s.trials
    have hsortf : (a :: as).Pairwise (fun a b => a.id < b.id) := by
      rw [← hl]
      exact hsort.sublist hsub
    have hmemf : ∀ u ∈ s.trials, u.state = TrialState.COMPLETE → u ∈ a :: as := by
      intro u hu huc
      rw [← hl]
      exact List.mem_filter.2 ⟨hu, by simp [huc]⟩
    refine ⟨fun _ => ⟨bestLoop s.direction a as, hbt⟩, ?_, ?_⟩
    · constructor
      · intro h
        rw [export_hyperparameters, hbt] at h
        exact Except.noConfusion h
      · intro h
        exfalso
        have ha : a ∈ s.trials.filter (fun t => t.state = TrialState.COMPLETE) := by
          rw [hl]
          exact List.mem_cons_self _ _
        exact h a (List.mem_of_mem_filter ha)
          (by simpa using List.of_mem_filter ha)
    · intro t ht
      rw [hbt] at ht
      have hteq : bestLoop s.direction a as = t := Except.ok.inj ht
      subst hteq
      have hrf : bestLoop s.direction a as ∈
          s.trials.filter (fun t => t.state = TrialState.COMPLETE) := by
        rw [hl]
        exact bestLoop_mem s.direction a as
      have hrc : (bestLoop s.direction a as).state = TrialState.COMPLETE := by
        simpa using List.of_mem_filter hrf
      refine ⟨List.mem_of_mem_filter hrf, hrc, ?_, ?_, ?_, ?_⟩
      · rw [hrc]
        intro hx
        cases hx
      · intro u hu huc
        exact bestLoop_not_better s.direction a as u (hmemf u hu huc)
      · intro u hu huc htie
        exact bestLoop_tie_id s.direction a as hsortf u (hmemf u hu huc) htie
      · rw [export_hyperparameters, hbt]
        rfl

/-- A persisted study matching the spec's tie-break test: final values
5.0 (COMPLETE), 3.0 (COMPLETE), 3.0 (FAILED), direction minimize. -/
def demoStudy : Study :=
  { name := "demo"
    direction := .minimize
    sampler := none
    pruner := none
    trials :=
      [ ⟨0, [("lr", 5)], some 5, .COMPLETE⟩,
        ⟨1, [("lr", 3)], some 3, .COMPLETE⟩,
        ⟨2, [("lr", 3)], some 3, .FAILED⟩ ] }

/-- Witness for C1 at the spec's tie-break example study. -/
theorem allenopt_C1_witness :
    demoStudy.trials.Pairwise (fun a b => a.id < b.id) ∧ BestExportSpec demoStudy :=
  ⟨by decide, allenopt_C1 demoStudy (by decide)⟩

/-! ## Lemmas about the descriptor loop -/

lemma suggestAll_step_unknown {sample : SuggestFun} {h : HParam}
    (hs : List HParam) (acc : List (String × Rat))
    (hk : knownSuggestTypes.contains h.type = false) :
    suggestAll sample (h :: hs) acc = (acc, some RunError.MalformedSpecError) := by
  have hm : ¬ h.type ∈ knownSuggestTypes := by simpa using hk
  simp [suggestAll, hm]

lemma suggestAll_step_known {sample : SuggestFun} {h : HParam} {n : String}
    (hs : List HParam) (acc : List (String × Rat))
    (hk : knownSuggestTypes.contains h.type = true)
    (hn : kwName h.keyword = some n) :
    suggestAll sample (h :: hs) acc =
      suggestAll sample hs (acc ++ [(n, sample h.type h.keyword)]) := by
  have hm : h.type ∈ knownSuggestTypes := by simpa using hk
  simp [suggestAll, hm, hn]

lemma suggestAll_ok (sample : SuggestFun) (hs : List HParam) (acc : List (String × Rat))
    (hknown : ∀ h ∈ hs, knownSuggestTypes.contains h.type = true)
    (hname : ∀ h ∈ hs, (kwName h.keyword).isSome) :
    suggestAll sample hs acc =
      (acc ++ hs.map (fun h => ((kwName h.keyword).getD "", sample h.type h.keyword)),
        none) := by
  induction hs generalizing acc with
  | nil => simp [suggestAll]
  | cons h hs ih =>
    have hk := hknown h (List.mem_cons_self _ _)
    obtain ⟨n, hn⟩ := Option.isSome_iff_exists.1 (hname h (List.mem_cons_self _ _))
    rw [suggestAll_step_known hs acc hk hn]
    rw [ih _ (fun x hx => hknown x (List.mem_cons_of_mem h hx))
        (fun x hx => hname x (List.mem_cons_of_mem h hx))]
    simp [hn]

lemma suggestAll_bad (sample : SuggestFun) (hs : List HParam) (acc : List (String × Rat))
    (hname : ∀ h ∈ hs, (kwName h.keyword).isSome)
    (hbad : ∃ h ∈ hs, knownSuggestTypes.contains h.type = false) :
    ∃ ps, suggestAll sample hs acc = (ps, some RunError.MalformedSpecError) := by
  induction hs generalizing acc with
  | nil =>
    rcases hbad with ⟨h, hh, _⟩
    cases hh
  | cons h hs ih =>
    cases hk : knownSuggestTypes.contains h.type with
    | false => exact ⟨acc, suggestAll_step_unknown hs acc hk⟩
    | true =>
      obtain ⟨n, hn⟩ := Option.isSome_iff_exists.1 (hname h (List.mem_cons_self _ _))
      rw [suggestAll_step_known hs acc hk hn]
      refine ih _ (fun x hx => hname x (List.mem_cons_of_mem h hx)) ?_
      rcases hbad with ⟨b, hb, hbk⟩
      rcases List.mem_cons.1 hb with hb' | hb'
      · rw [hb'] at hbk
        rw [hbk] at hk
        cases hk
      · exact ⟨b, hb', hbk⟩

/-- C6: every descriptor entry is processed in list order, invoking the
suggestion method named by its `type` with its `keyword` mapping passed
verbatim; no entry is silently skipped, so the trial ends up with one
sampled value per listed parameter, carrying that entry's name. -/
theorem allenopt_C6 (sample : SuggestFun) (hparams : List HParam)
    (hknown : ∀ h ∈ hparams, knownSuggestTypes.contains h.type = true)
    (hname : ∀ h ∈ hparams, (kwName h.keyword).isSome) :
    suggestAll sample hparams [] =
      (hparams.map (fun h => ((kwName h.keyword).getD "", sample h.type h.keyword)), none)
    ∧ ∀ h ∈ hparams,
        ((kwName h.keyword).getD "", sample h.type h.keyword) ∈
          (suggestAll sample hparams []).1 := by
  have heq := suggestAll_ok sample hparams [] hknown hname
  refine ⟨by simpa using heq, ?_⟩
  intro h hh
  rw [heq]
  simpa using List.mem_map_of_mem
    (fun h => ((kwName h.keyword).getD "", sample h.type h.keyword)) hh

/-- A well-formed two-entry descriptor document. -/
def demoHParams : List HParam :=
  [ ⟨"uniform", [("name", JVal.str "lr"), ("low", JVal.num 0), ("high", JVal.num 1)]⟩,
    ⟨"int", [("name", JVal.str "k"), ("low", JVal.num 1), ("high", JVal.num 4)]⟩ ]

/-- A concrete suggestion function. -/
def demoSample : SuggestFun := fun _ _ => 1

/-- Witness for C6 at a concrete descriptor document. -/
theorem allenopt_C6_witness :
    (∀ h ∈ demoHParams, knownSuggestTypes.contains h.type = true)
    ∧ (∀ h ∈ demoHParams, (kwName h.keyword).isSome)
    ∧ ((suggestAll demoSample demoHParams [] =
        (demoHParams.map
          (fun h => ((kwName h.keyword).getD "", demoSample h.type h.keyword)), none))
      ∧ ∀ h ∈ demoHParams,
          ((kwName h.keyword).getD "", demoSample h.type h.keyword) ∈
            (suggestAll demoSample demoHParams []).1) :=
  ⟨by decide, by decide, allenopt_C6 demoSample demoHParams (by decide) (by decide)⟩

/-! ## C2: unrecognized descriptor kind -/

/-- A descriptor document whose only entry has an unrecognized kind. -/
def badHParams : List HParam := [⟨"bogus", [("name", JVal.str "x")]⟩]

/-- A concrete run environment. -/
def demoEnv : RunEnv :=
  { sample := fun _ _ => 1
    train := fun _ => 0
    reports := fun _ => []
    pruneDecision := fun _ _ => false
    durations := fun _ => 1 }

/-- Counterexample to C2 as stated: with a one-entry descriptor document
of unrecognized kind, the run does fail fatally with
`MalformedSpecError`, but at the moment of failure one trial has already
been created and run (and marked FAILED) — the descriptor document is
only read inside the objective, so the failure does not occur before any
trial runs. -/
theorem allenopt_C2_counterexample :
    (optimizeLoop demoEnv badHParams "out" none (some 2) none 5 (initState [])).fatal
        = some RunError.MalformedSpecError
    ∧ (optimizeLoop demoEnv badHParams "out" none (some 2) none 5
        (initState [])).trials.length = 1
    ∧ ∀ t ∈ (optimizeLoop demoEnv badHParams "out" none (some 2) none 5
        (initState [])).trials, t.state = TrialState.FAILED := by
  decide

/-- C2 (amended): for every descriptor list whose entries all carry a
parameter name and at least one of which has an unrecognized kind, a run
with at least one trial of budget fails fatally with
`MalformedSpecError` — but the failure is raised during the first
trial's objective, which has by then been created and is marked FAILED;
exactly one trial exists at the failure, rather than zero. -/
theorem allenopt_C2 (env : RunEnv) (hparams : List HParam) (serDir : String)
    (pruner : Option StrategyCall) (fs0 : List String) (n fuel : Nat)
    (hname : ∀ h ∈ hparams, (kwName h.keyword).isSome)
    (hbad : ∃ h ∈ hparams, knownSuggestTypes.contains h.type = false)
    (hn : 1 ≤ n) (hf : 1 ≤ fuel) :
    (optimizeLoop env hparams serDir pruner (some n) none fuel (initState fs0)).fatal
        = some RunError.MalformedSpecError
    ∧ (optimizeLoop env hparams serDir pruner (some n) none fuel
        (initState fs0)).trials.length = 1
    ∧ ∀ t ∈ (optimizeLoop env hparams serDir pruner (some n) none fuel
        (initState fs0)).trials, t.state = TrialState.FAILED := by
  obtain ⟨f, rfl⟩ : ∃ f, fuel = f + 1 := ⟨fuel - 1, by omega⟩
  obtain ⟨ps, hsug⟩ := suggestAll_bad env.sample hparams [] hname hbad
  have hobj : _objective env hparams serDir pruner 0 fs0 =
      (⟨0, ps, none, .FAILED⟩, fs0, some .MalformedSpecError) := by
    simp [_objective, hsug]
  have hstop : stopNow (some n) none 0 0 = false := by
    simp [stopNow]
    omega
  simp only [optimizeLoop, initState, List.length_nil, hstop, Bool.false_eq_true,
    if_false, hobj]
  simp

/-- Witness for the amended C2 at the concrete one-entry document. -/
theorem allenopt_C2_witness :
    (∀ h ∈ badHParams, (kwName h.keyword).isSome)
    ∧ (∃ h ∈ badHParams, knownSuggestTypes.contains h.type = false)
    ∧ 1 ≤ 2 ∧ 1 ≤ 5
    ∧ ((optimizeLoop demoEnv badHParams "out" none (some 2) none 5 (initState [])).fatal
          = some RunError.MalformedSpecError
      ∧ (optimizeLoop demoEnv badHParams "out" none (some 2) none 5
          (initState [])).trials.length = 1
      ∧ ∀ t ∈ (optimizeLoop demoEnv badHParams "out" none (some 2) none 5
          (initState [])).trials, t.state = TrialState.FAILED) :=
  ⟨by decide, by decide, by decide, by decide,
    allenopt_C2 demoEnv badHParams "out" none [] 2 5 (by decide) (by decide)
      (by decide) (by decide)⟩

/-! ## C3: isolated trial output directory -/

/-- C3: once the descriptor loop has succeeded, the executor step works
in the directory `serialization_dir/trial_<id>`: if that directory
pre-exists, the trial fails with `DirectoryConflictError`; otherwise the
directory is created (appended to the existing directories) and no
`DirectoryConflictError` arises. -/
theorem allenopt_C3 (env : RunEnv) (hparams : List HParam) (serDir : String)
    (pruner : Option StrategyCall) (id : Nat) (fs : List String)
    (ps : List (String × Rat))
    (hok : suggestAll env.sample hparams [] = (ps, none)) :
    (fs.contains (trialDirPath serDir id) = true →
      _objective env hparams serDir pruner id fs =
        (⟨id, ps, none, .FAILED⟩, fs, some RunError.DirectoryConflictError))
    ∧ (fs.contains (trialDirPath serDir id) = false →
        (_objective env hparams serDir pruner id fs).2.1 =
          fs ++ [trialDirPath serDir id]
        ∧ (_objective env hparams serDir pruner id fs).2.2 ≠
            some RunError.DirectoryConflictError) := by
  constructor
  · intro hc
    have hm : trialDirPath serDir id ∈ fs := by simpa using hc
    simp [_objective, hok, hm]
  · intro hc
    have hm : ¬ trialDirPath serDir id ∈ fs := by simpa using hc
    cases hsp : scanPrune pruner env.pruneDecision [] (env.reports id) with
    | none => simp [_objective, hok, hm, hsp]
    | some v => simp [_objective, hok, hm, hsp]

/-- Witness for C3 at a concrete trial. -/
theorem allenopt_C3_witness :
    suggestAll demoEnv.sample demoHParams [] = ([("lr", 1), ("k", 1)], none)
    ∧ ((["out/trial_0"].contains (trialDirPath "out" 0) = true →
        _objective demoEnv demoHParams "out" none 0 ["out/trial_0"] =
          (⟨0, [("lr", 1), ("k", 1)], none, .FAILED⟩, ["out/trial_0"],
            some RunError.DirectoryConflictError))
      ∧ (["out/trial_0"].contains (trialDirPath "out" 0) = false →
          (_objective demoEnv demoHParams "out" none 0 ["out/trial_0"]).2.1 =
            ["out/trial_0"] ++ [trialDirPath "out" 0]
          ∧ (_objective demoEnv demoHParams "out" none 0 ["out/trial_0"]).2.2 ≠
              some RunError.DirectoryConflictError)) :=
  ⟨by decide,
    allenopt_C3 demoEnv demoHParams "out" none 0 ["out/trial_0"] [("lr", 1), ("k", 1)]
      (by decide)⟩

/-! ## C5: duplicate study names and load_if_exists -/

/-- C5: when a study with the requested name already exists in the
storage, creation fails with `DuplicateStudyError` if `load_if_exists`
is false and loads the existing study, re-attaching the given sampler
and pruner, if it is true; and the CLI's `--skip-if-exists` flag (which
becomes `load_if_exists`) defaults to false. -/
theorem allenopt_C5 (storage : List Study) (nm : String) (d : Direction)
    (sp pr : Option StrategyCall) (st0 : Study)
    (hfound : storage.find? (fun st => st.name == nm) = some st0) :
    create_study storage nm d sp pr false = .error .DuplicateStudyError
    ∧ create_study storage nm d sp pr true =
        .ok { st0 with sampler := sp, pruner := pr }
    ∧ (parseArgs false none none none none none).skip_if_exists = false := by
  refine ⟨?_, ?_, rfl⟩ <;> simp [create_study, hfound]

/-- Witness for C5 at a one-study storage. -/
theorem allenopt_C5_witness :
    ([demoStudy].find? (fun st => st.name == "demo") = some demoStudy)
    ∧ (create_study [demoStudy] "demo" .minimize none none false =
        .error .DuplicateStudyError
      ∧ create_study [demoStudy] "demo" .minimize none none true =
          .ok { demoStudy with sampler := none, pruner := none }
      ∧ (parseArgs false none none none none none).skip_if_exists = false) :=
  ⟨by decide, allenopt_C5 [demoStudy] "demo" .minimize none none demoStudy (by decide)⟩

/-! ## C7: default sampler when none is configured -/

/-- C7: when the optuna configuration has no `sampler` section, the
study created by the CLI carries no sampler, and the strategy in effect
falls back to the default uniform-random sampler. -/
theorem allenopt_C7 (fsys : FileSystem) (path : Option String) (args : ParsedArgs)
    (nm : String) (storage : List Study) (st : Study)
    (hnos : (loadOptunaConfig fsys path).sampler = none)
    (hok : setupStudy fsys path args nm storage = .ok st) :
    st.sampler = none
    ∧ effectiveSampler st.sampler = .defaultUniformRandom := by
  have hbs : buildSampler (loadOptunaConfig fsys path) = none := by
    simp [buildSampler, hnos]
  rw [setupStudy] at hok
  rw [hbs] at hok
  cases hfind : storage.find? (fun s => s.name == nm) with
  | none =>
    simp only [create_study, hfind] at hok
    have hst := Except.ok.inj hok
    rw [← hst]
    exact ⟨rfl, rfl⟩
  | some st0 =>
    simp only [create_study, hfind] at hok
    split_ifs at hok with hsk
    all_goals
      first
      | exact Except.noConfusion hok
      | (have hst := Except.ok.inj hok
         rw [← hst]
         exact ⟨rfl, rfl⟩)

/-- A file system with no regular files. -/
def demoFS : FileSystem := ⟨fun _ => false, fun _ => emptyOptunaConfig⟩

/-- Witness for C7 with no configuration file at all. -/
theorem allenopt_C7_witness :
    ((loadOptunaConfig demoFS none).sampler = none)
    ∧ (setupStudy demoFS none (parseArgs false none none none none none) "s" [] =
        .ok ⟨"s", .minimize, none, none, []⟩)
    ∧ ((⟨"s", .minimize, none, none, []⟩ : Study).sampler = none
      ∧ effectiveSampler (⟨"s", .minimize, none, none, []⟩ : Study).sampler =
          .defaultUniformRandom) :=
  ⟨by decide, by rfl,
    allenopt_C7 demoFS none (parseArgs false none none none none none) "s" []
      ⟨"s", .minimize, none, none, []⟩ (by decide) (by rfl)⟩

/-! ## Loop step lemmas and C8: no pruner, no PRUNED trial -/

lemma optimizeLoop_stop {env : RunEnv} {hparams : List HParam} {serDir : String}
    {pruner : Option StrategyCall} {n_trials : Option Nat} {timeout : Option Rat}
    (fuel : Nat) (st : LoopState)
    (h : stopNow n_trials timeout st.trials.length st.elapsed = true) :
    optimizeLoop env hparams serDir pruner n_trials timeout (fuel + 1) st =
      { st with stoppedByBudget := true } := by
  simp [optimizeLoop, h]

lemma optimizeLoop_go_err {env : RunEnv} {hparams : List HParam} {serDir : String}
    {pruner : Option StrategyCall} {n_trials : Option Nat} {timeout : Option Rat}
    {e : RunError} (fuel : Nat) (st : LoopState)
    (h : stopNow n_trials timeout st.trials.length st.elapsed = false)
    (herr : (_objective env hparams serDir pruner st.trials.length st.fs).2.2 = some e) :
    optimizeLoop env hparams serDir pruner n_trials timeout (fuel + 1) st =
      { trials := st.trials ++
          [(_objective env hparams serDir pruner st.trials.length st.fs).1]
        fs := (_objective env hparams serDir pruner st.trials.length st.fs).2.1
        elapsed := st.elapsed + env.durations st.trials.length
        fatal := some e
        stoppedByBudget := false } := by
  simp [optimizeLoop, h, herr]

lemma optimizeLoop_go_ok {env : RunEnv} {hparams : List HParam} {serDir : String}
    {pruner : Option StrategyCall} {n_trials : Option Nat} {timeout : Option Rat}
    (fuel : Nat) (st : LoopState)
    (h : stopNow n_trials timeout st.trials.length st.elapsed = false)
    (herr : (_objective env hparams serDir pruner st.trials.length st.fs).2.2 = none) :
    optimizeLoop env hparams serDir pruner n_trials timeout (fuel + 1) st =
      optimizeLoop env hparams serDir pruner n_trials timeout fuel
        { trials := st.trials ++
            [(_objective env hparams serDir pruner st.trials.length st.fs).1]
          fs := (_objective env hparams serDir pruner st.trials.length st.fs).2.1
          elapsed := st.elapsed + env.durations st.trials.length
          fatal := none
          stoppedByBudget := false } := by
  simp [optimizeLoop, h, herr]

lemma scanPrune_none (decision : StrategyCall → List Rat → Bool)
    (acc l : List Rat) : scanPrune none decision acc l = none := by
  induction l generalizing acc with
  | nil => rfl
  | cons v vs ih => simp [scanPrune, shouldPrune, ih]

/-- With no pruner attached, `_objective` never produces a PRUNED
trial. -/
lemma objective_no_prune (env : RunEnv) (hparams : List HParam) (serDir : String)
    (id : Nat) (fs : List String) :
    (_objective env hparams serDir none id fs).1.state ≠ TrialState.PRUNED := by
  rw [_objective]
  cases hsug : suggestAll env.sample hparams [] with
  | mk ps err =>
    cases err with
    | some e => simp
    | none =>
      by_cases hm : trialDirPath serDir id ∈ fs
      · simp [hm]
      · simp [hm, scanPrune_none]

/-- C8: whenever no pruner is configured, no trial of the run ever
reaches state PRUNED — from any starting state none of whose trials is
PRUNED, the optimize loop never adds one. -/
theorem allenopt_C8 (env : RunEnv) (hparams : List HParam) (serDir : String)
    (n_trials : Option Nat) (timeout : Option Rat) (fuel : Nat) (st : LoopState)
    (hinit : ∀ t ∈ st.trials, t.state ≠ TrialState.PRUNED) :
    ∀ t ∈ (optimizeLoop env hparams serDir none n_trials timeout fuel st).trials,
      t.state ≠ TrialState.PRUNED := by
  induction fuel generalizing st with
  | zero => exact hinit
  | succ f ih =>
    have hext : ∀ t ∈ st.trials ++
        [(_objective env hparams serDir none st.trials.length st.fs).1],
        t.state ≠ TrialState.PRUNED := by
      intro t ht
      rcases List.mem_append.1 ht with ht' | ht'
      · exact hinit t ht'
      · rcases List.mem_singleton.1 ht' with rfl
        exact objective_no_prune env hparams serDir st.trials.length st.fs
    cases h : stopNow n_trials timeout st.trials.length st.elapsed with
    | true =>
      rw [optimizeLoop_stop f st h]
      exact hinit
    | false =>
      cases herr : (_objective env hparams serDir none st.trials.length st.fs).2.2 with
      | some e =>
        rw [optimizeLoop_go_err f st h herr]
        exact hext
      | none =>
        rw [optimizeLoop_go_ok f st h herr]
        exact ih _ hext

/-- Witness for C8 at a concrete pruner-less run. -/
theorem allenopt_C8_witness :
    (∀ t ∈ (initState []).trials, t.state ≠ TrialState.PRUNED)
    ∧ ∀ t ∈ (optimizeLoop demoEnv demoHParams "out" none (some 2) none 3
        (initState [])).trials, t.state ≠ TrialState.PRUNED :=
  ⟨by decide,
    allenopt_C8 demoEnv demoHParams "out" (some 2) none 3 (initState []) (by decide)⟩

/-! ## C9: missing or mistyped configuration path is silently ignored -/

/-- C9: when the optuna configuration path is unset, or set to a path
that is not a regular file, the run proceeds with the empty
configuration — default sampler, no pruner — and the whole setup is
identical to a run with no configuration path at all; the loading step
is total, so no error is ever raised. -/
theorem allenopt_C9 (fsys : FileSystem) (path : Option String)
    (hmiss : ∀ p, path = some p → fsys.isfile p = false) :
    loadOptunaConfig fsys path = emptyOptunaConfig
    ∧ buildSampler (loadOptunaConfig fsys path) = none
    ∧ buildPruner (loadOptunaConfig fsys path) = none
    ∧ effectiveSampler (buildSampler (loadOptunaConfig fsys path)) =
        .defaultUniformRandom
    ∧ ∀ (args : ParsedArgs) (nm : String) (storage : List Study),
        setupStudy fsys path args nm storage = setupStudy fsys none args nm storage := by
  have hload : loadOptunaConfig fsys path = emptyOptunaConfig := by
    cases path with
    | none => rfl
    | some p => simp [loadOptunaConfig, hmiss p rfl]
  refine ⟨hload, ?_, ?_, ?_, ?_⟩
  · simp [hload, buildSampler, emptyOptunaConfig]
  · simp [hload, buildPruner, emptyOptunaConfig]
  · simp [hload, buildSampler, emptyOptunaConfig, effectiveSampler]
  · intro args nm storage
    rw [setupStudy, setupStudy, hload]
    rfl

/-- Witness for C9 at a mistyped path on a file system with no files. -/
theorem allenopt_C9_witness :
    (∀ p, (some "missing.json" : Option String) = some p → demoFS.isfile p = false)
    ∧ (loadOptunaConfig demoFS (some "missing.json") = emptyOptunaConfig
      ∧ buildSampler (loadOptunaConfig demoFS (some "missing.json")) = none
      ∧ buildPruner (loadOptunaConfig demoFS (some "missing.json")) = none
      ∧ effectiveSampler (buildSampler (loadOptunaConfig demoFS (some "missing.json"))) =
          .defaultUniformRandom
      ∧ ∀ (args : ParsedArgs) (nm : String) (storage : List Study),
          setupStudy demoFS (some "missing.json") args nm storage =
            setupStudy demoFS none args nm storage) :=
  ⟨fun p hp => by injection hp with h; rw [← h]; rfl,
    allenopt_C9 demoFS (some "missing.json")
      (fun p hp => by injection hp with h; rw [← h]; rfl)⟩

/-! ## C10: asymmetric construction of pruner and sampler -/

/-- C10: with both sections present, the pruner constructor receives its
keyword mapping unpacked as keyword arguments while the sampler
constructor receives its keyword mapping as a single positional
argument; the two argument shapes are never equal. -/
theorem allenopt_C10 (cfg : OptunaConfig) (p s : SectionCfg)
    (hp : cfg.pruner = some p) (hs : cfg.sampler = some s) :
    buildPruner cfg = some ⟨p.type, CtorArg.kwargs p.keyword⟩
    ∧ buildSampler cfg = some ⟨s.type, CtorArg.positionalMap s.keyword⟩
    ∧ ∀ (kw kw' : KwMap), CtorArg.kwargs kw ≠ CtorArg.positionalMap kw' := by
  refine ⟨by simp [buildPruner, hp], by simp [buildSampler, hs], ?_⟩
  intro kw kw' h
  cases h

/-- A configuration document with both sections present. -/
def demoCfg : OptunaConfig :=
  { sampler := some ⟨"TPESampler", [("seed", JVal.num 42)]⟩
    pruner := some ⟨"HyperbandPruner", [("min_resource", JVal.num 1)]⟩ }

/-- Witness for C10 at a concrete two-section configuration. -/
theorem allenopt_C10_witness :
    (demoCfg.pruner = some ⟨"HyperbandPruner", [("min_resource", JVal.num 1)]⟩)
    ∧ (demoCfg.sampler = some ⟨"TPESampler", [("seed", JVal.num 42)]⟩)
    ∧ (buildPruner demoCfg =
        some ⟨"HyperbandPruner", CtorArg.kwargs [("min_resource", JVal.num 1)]⟩
      ∧ buildSampler demoCfg =
          some ⟨"TPESampler", CtorArg.positionalMap [("seed", JVal.num 42)]⟩
      ∧ ∀ (kw kw' : KwMap), CtorArg.kwargs kw ≠ CtorArg.positionalMap kw') :=
  ⟨by decide, by decide,
    allenopt_C10 demoCfg ⟨"HyperbandPruner", [("min_resource", JVal.num 1)]⟩
      ⟨"TPESampler", [("seed", JVal.num 42)]⟩ (by decide) (by decide)⟩

/-! ## C4: loop budgets and the `--n-trials` default -/

/-- C4: the orchestration loop itself stops only when a configured
budget triggers (with neither budget set, `stopNow` never fires) — but
the CLI never leaves `n_trials` unset: with neither `--n-trials` nor
`--timeout` given, argparse substitutes the default `n_trials = 50`
(source line 148), so the run stops by budget after exactly 50 trials
instead of running until externally interrupted as the option's own
help text ("as many trials run as possible") and the claim state. -/
theorem allenopt_C4 :
    (parseArgs false none none none none none).n_trials = some 50
    ∧ (parseArgs false none none none none none).timeout = none
    ∧ (∀ (d : Nat) (e : Rat), stopNow none none d e = false)
    ∧ (optimizeLoop demoEnv demoHParams "out" none
        (parseArgs false none none none none none).n_trials
        (parseArgs false none none none none none).timeout 60
        (initState [])).stoppedByBudget = true
    ∧ (optimizeLoop demoEnv demoHParams "out" none
        (parseArgs false none none none none none).n_trials
        (parseArgs false none none none none none).timeout 60
        (initState [])).trials.length = 50 := by
  refine ⟨rfl, rfl, fun d e => rfl, ?_, ?_⟩ <;> decide

end AllenOpt
